import Mathlib

/-!
Verification development for the two-tier hybrid key-value storage layer of
aligent/microservice-development-utilities (`aio-persistent-state`): the
String Storage Client (`state-files.ts`, Adobe I/O State + Files) and the
Typed Document Storage Client (`state-database.ts`, Adobe I/O State +
Database), together with the shared key encoder (`utils.ts`) and constants
(`constants.ts`).

The embedding is a shallow one.  Each client operation is modelled as a pure
function from the client configuration, the current contents of the two
backing tiers, and a fault-injection record (which collaborator calls throw),
to a `StepResult`: the operation's outcome (`Except Err α`), the updated tier
contents, and the trace of collaborator calls issued, in order.  The
collaborator stores behave per their documented contracts (section 6 of the
spec): the fast tier (Adobe I/O State) is a key-value store whose `get`
returns the stored value or a miss; the blob tier (Adobe I/O Files) throws a
distinguishable not-found error on reading an absent path; the document tier
(Adobe I/O Database) returns `null` from `findOne` when no document matches.
Since every client manages exactly one key (one file path, one document id),
the tier contents are modelled as that single entry of each tier.
-/

/-- Default TTL for I/O State: 1 year in seconds (`constants.ts`). -/
def DEFAULT_ONE_YEAR_TTL_SECONDS : Nat := 31536000

/-- Maximum length in characters of a base64url-encoded key (`constants.ts`). -/
def MAX_KEY_SIZE : Nat := 1024

/-- Maximum value size in bytes accepted by Adobe I/O State (`constants.ts`). -/
def MAX_STATE_VALUE_SIZE : Nat := 1024 * 1024

/-- Errors surfaced by the storage layer.  `fileNotExists` stands for a
JavaScript `Error` carrying `code === ERROR_FILE_NOT_EXISTS` (the blob
tier's distinguishable not-found error); `keySizeExceeded` is the error
thrown by `encodeKey`; `tierFailure` is any other storage-operation failure
(connection errors etc.) injected through the fault record. -/
inductive Err where
  | fileNotExists
  | keySizeExceeded
  | tierFailure (msg : String)
deriving DecidableEq, Repr

/-- Whether an error is the blob tier's not-found error: models the test
`error instanceof Error && code in error && error.code === ERROR_FILE_NOT_EXISTS`. -/
def Err.isFileNotExists : Err → Bool
  | Err.fileNotExists => true
  | _ => false

/-- UTF-8 encoding of a single character as a list of byte values. -/
def utf8Bytes (c : Char) : List Nat :=
  let n := c.toNat
  if n < 128 then [n]
  else if n < 2048 then [192 + n / 64, 128 + n % 64]
  else if n < 65536 then [224 + n / 4096, 128 + n / 64 % 64, 128 + n % 64]
  else [240 + n / 262144, 128 + n / 4096 % 64, 128 + n / 64 % 64, 128 + n % 64]

/-- The UTF-8 byte sequence of a string. -/
def strBytes (s : String) : List Nat :=
  (s.data.map utf8Bytes).flatten

/-- `Buffer.byteLength(s)`: UTF-8 byte length of a string. -/
def utf8Len (s : String) : Nat :=
  (strBytes s).length

/-- The base64url alphabet: A-Z, a-z, 0-9, hyphen, underscore. -/
def b64Char (n : Nat) : Char :=
  if n < 26 then Char.ofNat (65 + n)
  else if n < 52 then Char.ofNat (97 + (n - 26))
  else if n < 62 then Char.ofNat (48 + (n - 52))
  else if n = 62 then Char.ofNat 45
  else Char.ofNat 95

/-- Base64url encoding of a byte sequence, without padding (the `base64url`
npm package strips the `=` padding). -/
def b64Chunks : List Nat → List Char
  | [] => []
  | [a] => [b64Char (a / 4), b64Char (a % 4 * 16)]
  | [a, b] => [b64Char (a / 4), b64Char (a % 4 * 16 + b / 16), b64Char (b % 16 * 4)]
  | a :: b :: c :: rest =>
      b64Char (a / 4) :: b64Char (a % 4 * 16 + b / 16) ::
        b64Char (b % 16 * 4 + c / 64) :: b64Char (c % 64) :: b64Chunks rest

/-- `base64url.encode`: base64url encoding of a string's UTF-8 bytes. -/
def base64urlEncode (s : String) : String :=
  String.mk (b64Chunks (strBytes s))

/-- `encodeKey` (`utils.ts`): base64url-encode a key; throw when the encoded
key exceeds `MAX_KEY_SIZE` characters. -/
def encodeKey (key : String) : Except Err String :=
  let encodedKey := base64urlEncode key
  if encodedKey.length > MAX_KEY_SIZE then Except.error Err.keySizeExceeded
  else Except.ok encodedKey

/-- JSON values, as handled by `JSON.stringify` / `JSON.parse`.  Numbers are
modelled as integers (the stored documents of this library are plain
JSON-serializable objects; fractional literals play no role in the claims). -/
inductive Json where
  | null
  | bool (b : Bool)
  | num (n : Int)
  | str (s : String)
  | arr (elems : List Json)
  | obj (fields : List (String × Json))

/-- A JavaScript object as stored by the document client: an ordered list of
fields with distinct keys. -/
abbrev Doc := List (String × Json)

/-- One hexadecimal digit, for `\u00XX` escapes. -/
def hexDigit (n : Nat) : Char :=
  if n < 10 then Char.ofNat (48 + n) else Char.ofNat (97 + (n - 10))

/-- `JSON.stringify` escaping of one character inside a string literal. -/
def escapeChar (c : Char) : List Char :=
  if c = Char.ofNat 34 then [Char.ofNat 92, Char.ofNat 34]
  else if c = Char.ofNat 92 then [Char.ofNat 92, Char.ofNat 92]
  else if c = Char.ofNat 8 then [Char.ofNat 92, Char.ofNat 98]
  else if c = Char.ofNat 9 then [Char.ofNat 92, Char.ofNat 116]
  else if c = Char.ofNat 10 then [Char.ofNat 92, Char.ofNat 110]
  else if c = Char.ofNat 12 then [Char.ofNat 92, Char.ofNat 102]
  else if c = Char.ofNat 13 then [Char.ofNat 92, Char.ofNat 114]
  else if c.toNat < 32 then
    [Char.ofNat 92, Char.ofNat 117, Char.ofNat 48, Char.ofNat 48,
      hexDigit (c.toNat / 16), hexDigit (c.toNat % 16)]
  else [c]

/-- A JSON string literal: quotes around the escaped characters. -/
def quoteStr (s : String) : String :=
  String.mk (Char.ofNat 34 :: (s.data.map escapeChar).flatten ++ [Char.ofNat 34])

mutual

/-- `JSON.stringify` on a JSON value. -/
def Json.stringify : Json → String
  | Json.null => "null"
  | Json.bool true => "true"
  | Json.bool false => "false"
  | Json.num n => toString n
  | Json.str s => quoteStr s
  | Json.arr elems => "[" ++ stringifyElems elems ++ "]"
  | Json.obj fields => "\x7b" ++ stringifyFields fields ++ "\x7d"

/-- Comma-separated serialization of array elements. -/
def stringifyElems : List Json → String
  | [] => ""
  | [x] => Json.stringify x
  | x :: xs => Json.stringify x ++ "," ++ stringifyElems xs

/-- Comma-separated serialization of object fields. -/
def stringifyFields : List (String × Json) → String
  | [] => ""
  | [(k, v)] => quoteStr k ++ ":" ++ Json.stringify v
  | (k, v) :: fs => quoteStr k ++ ":" ++ Json.stringify v ++ "," ++ stringifyFields fs

end

/-- Look a field up in an object (JavaScript property access). -/
def lookupField : Doc → String → Option Json
  | [], _ => none
  | (k, v) :: fs, key => if k = key then some v else lookupField fs key

/-- Remove a field from an object (the `projection` with the field set to 0,
or the absence of the field from a spread result). -/
def eraseField : Doc → String → Doc
  | [], _ => []
  | (k, v) :: fs, key =>
      if k = key then eraseField fs key else (k, v) :: eraseField fs key

/-- The database document built by `put` (`state-database.ts` line 185):
`\x7b _id: dbDocumentId, ...data \x7d`.  Per JavaScript spread semantics the
`_id` entry keeps the first position, but a (degenerate) `_id` field inside
`data` would override its value. -/
def mkDbDocument (dbDocumentId : String) (data : Doc) : Doc :=
  ("_id", (lookupField data "_id").getD (Json.str dbDocumentId)) :: eraseField data "_id"

/-- One collaborator call, as recorded in an operation's trace. -/
inductive Event where
  | stateGet (key : String)
  | statePut (key value : String) (ttl : Nat)
  | stateDelete (key : String)
  | fileRead (path : String)
  | fileWrite (path value : String)
  | fileDelete (path : String)
  | dbReplaceOne (collection id : String) (doc : Doc)
  | dbFindOne (collection id : String) (excludeId : Bool)
  | dbDeleteOne (collection id : String)

/-- Is this call a fast-tier write? -/
def Event.isFastWrite : Event → Bool
  | Event.statePut _ _ _ => true
  | _ => false

/-- Is this call a durable-tier write (blob write or collection upsert)? -/
def Event.isDurableWrite : Event → Bool
  | Event.fileWrite _ _ => true
  | Event.dbReplaceOne _ _ _ => true
  | _ => false

/-- Is this call a durable-tier read (blob read or collection query)? -/
def Event.isDurableRead : Event → Bool
  | Event.fileRead _ => true
  | Event.dbFindOne _ _ _ => true
  | _ => false

/-- Outcome of one client operation: its result, the tier contents
afterwards, and the collaborator calls it issued, in order. -/
structure StepResult (σ : Type) (α : Type) where
  result : Except Err α
  store : σ
  trace : List Event

/-- Configuration accepted by `createFileStorageClient`
(`FileStorageClientConfig` in `state-files.ts`): the raw key and an optional
TTL in seconds. -/
structure FileStorageClientConfig where
  key : String
  ttl : Option Nat

/-- The data a constructed file storage client closes over: the resolved
configuration, the pre-computed encoded key and the file path. -/
structure FileStorageClient where
  key : String
  ttl : Nat
  encodedKey : String
  filePath : String

/-- `createFileStorageClient` (`state-files.ts`): resolve the TTL default,
encode the key (throwing when the encoded form exceeds `MAX_KEY_SIZE`), and
pre-compute the file path.  No tier call is involved: the tier handles are
initialised lazily on first operation. -/
def createFileStorageClient (config : FileStorageClientConfig) :
    Except Err FileStorageClient :=
  match encodeKey config.key with
  | Except.error e => Except.error e
  | Except.ok encodedKey =>
      Except.ok
        { key := config.key
          ttl := config.ttl.getD DEFAULT_ONE_YEAR_TTL_SECONDS
          encodedKey := encodedKey
          filePath := config.key ++ ".json" }

/-- Contents of the two tiers backing one file storage client: the fast-tier
entry under the encoded key (`none` = miss or TTL expiry) and the blob at
the client's file path (`none` = file does not exist). -/
structure StringTiers where
  fast : Option String
  files : Option String

/-- Fault injection for the file client's collaborator calls: `some e` makes
that call throw `e`. -/
structure FileFaults where
  stateGet : Option Err
  statePut : Option Err
  filesRead : Option Err
  filesWrite : Option Err
  stateDelete : Option Err
  filesDelete : Option Err

/-- All collaborator calls succeed. -/
def noFileFaults : FileFaults :=
  { stateGet := none, statePut := none, filesRead := none
    filesWrite := none, stateDelete := none, filesDelete := none }

/-- The catch block of the file client's `get` (`state-files.ts` lines
449-465): an error carrying the blob tier's not-found code is normalized to
`undefined`; every other error is re-thrown after logging. -/
def catchNotFound (e : Err) : Except Err (Option String) :=
  if e.isFileNotExists then Except.ok none else Except.error e

/-- `get` of the file storage client (`state-files.ts` lines 418-466).
Read the fast tier first; on a miss read the blob; when the blob value is
within the 1 MB State limit, write it back to the fast tier with the
configured TTL (self-healing) before returning it.  The surrounding catch
turns the blob tier's not-found error into `undefined` and re-throws
everything else. -/
def FileStorageClient.get (c : FileStorageClient) (t : StringTiers)
    (f : FileFaults) : StepResult StringTiers (Option String) :=
  let ev0 := [Event.stateGet c.encodedKey]
  match f.stateGet with
  | some e => ⟨catchNotFound e, t, ev0⟩
  | none =>
    match t.fast with
    | some v => ⟨Except.ok (some v), t, ev0⟩
    | none =>
      let ev1 := ev0 ++ [Event.fileRead c.filePath]
      match f.filesRead with
      | some e => ⟨catchNotFound e, t, ev1⟩
      | none =>
        match t.files with
        | none => ⟨Except.ok none, t, ev1⟩
        | some v =>
          if utf8Len v ≤ MAX_STATE_VALUE_SIZE then
            let ev2 := ev1 ++ [Event.statePut c.encodedKey v c.ttl]
            match f.statePut with
            | some e => ⟨catchNotFound e, t, ev2⟩
            | none => ⟨Except.ok (some v), ⟨some v, t.files⟩, ev2⟩
          else ⟨Except.ok (some v), t, ev1⟩

/-- `put` of the file storage client (`state-files.ts` lines 481-512).
Always write to the blob tier first for durability; values over the 1 MB
State limit are stored in the blob only (with a warning log); otherwise the
value is also cached in the fast tier with the configured TTL.  Every error
is re-thrown after logging. -/
def FileStorageClient.put (c : FileStorageClient) (value : String)
    (t : StringTiers) (f : FileFaults) : StepResult StringTiers Unit :=
  let ev0 := [Event.fileWrite c.filePath value]
  match f.filesWrite with
  | some e => ⟨Except.error e, t, ev0⟩
  | none =>
    let t1 : StringTiers := ⟨t.fast, some value⟩
    if utf8Len value > MAX_STATE_VALUE_SIZE then ⟨Except.ok (), t1, ev0⟩
    else
      let ev1 := ev0 ++ [Event.statePut c.encodedKey value c.ttl]
      match f.statePut with
      | some e => ⟨Except.error e, t1, ev1⟩
      | none => ⟨Except.ok (), ⟨some value, some value⟩, ev1⟩

/-- JavaScript double-negation on a `string | undefined` value, as used by
the file client's `exists`: `undefined` and the empty string are falsy. -/
def jsTruthy : Option String → Bool
  | none => false
  | some s => decide (s ≠ "")

/-- `exists` of the file storage client (`state-files.ts` lines 517-520):
`const value = await this.get(logger); return !!value;`. -/
def FileStorageClient.exists (c : FileStorageClient) (t : StringTiers)
    (f : FileFaults) : StepResult StringTiers Bool :=
  let r := c.get t f
  ⟨r.result.map jsTruthy, r.store, r.trace⟩

/-- `delete` of the file storage client (`state-files.ts` lines 525-541):
delete the fast-tier entry and the blob concurrently (`Promise.all`); both
deletions are always issued.  A failed deletion is logged and re-thrown. -/
def FileStorageClient.delete (c : FileStorageClient) (t : StringTiers)
    (f : FileFaults) : StepResult StringTiers Unit :=
  let ev := [Event.stateDelete c.encodedKey, Event.fileDelete c.filePath]
  let fast1 := match f.stateDelete with | some _ => t.fast | none => none
  let files1 := match f.filesDelete with | some _ => t.files | none => none
  match f.stateDelete, f.filesDelete with
  | some e, _ => ⟨Except.error e, ⟨fast1, files1⟩, ev⟩
  | none, some e => ⟨Except.error e, ⟨fast1, files1⟩, ev⟩
  | none, none => ⟨Except.ok (), ⟨none, none⟩, ev⟩

/-- Configuration accepted by `createDatabaseStorageClient`
(`DatabaseStorageClientConfig` in `state-database.ts`). -/
structure DatabaseStorageClientConfig where
  key : String
  dbCollection : String
  dbDocumentId : String
  ttl : Option Nat

/-- The data a constructed database storage client closes over. -/
structure DatabaseStorageClient where
  key : String
  ttl : Nat
  encodedKey : String
  dbCollection : String
  dbDocumentId : String

/-- `createDatabaseStorageClient` (`state-database.ts` lines 157-166):
resolve the TTL default and encode the key (throwing when the encoded form
exceeds `MAX_KEY_SIZE`).  No tier call is involved. -/
def createDatabaseStorageClient (config : DatabaseStorageClientConfig) :
    Except Err DatabaseStorageClient :=
  match encodeKey config.key with
  | Except.error e => Except.error e
  | Except.ok encodedKey =>
      Except.ok
        { key := config.key
          ttl := config.ttl.getD DEFAULT_ONE_YEAR_TTL_SECONDS
          encodedKey := encodedKey
          dbCollection := config.dbCollection
          dbDocumentId := config.dbDocumentId }

/-- Contents of the two tiers backing one database storage client.  The fast
tier holds the JSON serialization of a document; since every fast-tier entry
is written as `JSON.stringify` of a document and read back through
`JSON.parse`, the entry is modelled as the document itself. -/
structure DocTiers where
  fast : Option Doc
  doc : Option Doc

/-- Fault injection for the database client's collaborator calls. -/
structure DbFaults where
  stateGet : Option Err
  statePut : Option Err
  dbFind : Option Err
  dbReplace : Option Err
  stateDelete : Option Err
  dbDelete : Option Err

/-- All collaborator calls succeed. -/
def noDbFaults : DbFaults :=
  { stateGet := none, statePut := none, dbFind := none
    dbReplace := none, stateDelete := none, dbDelete := none }

/-- `put` of the database storage client (`state-database.ts` lines
173-212).  Upsert the document (`replaceOne` with `upsert: true`, the `_id`
merged into a shallow copy of the data) into the durable collection first;
when the JSON serialization exceeds the 1 MB State limit, store in the
database only (with a warning log); otherwise also cache the JSON string in
the fast tier with the configured TTL.  Every error is re-thrown after
logging. -/
def DatabaseStorageClient.put (c : DatabaseStorageClient) (data : Doc)
    (t : DocTiers) (f : DbFaults) : StepResult DocTiers Unit :=
  let jsonData := Json.stringify (Json.obj data)
  let dbDocument := mkDbDocument c.dbDocumentId data
  let ev0 := [Event.dbReplaceOne c.dbCollection c.dbDocumentId dbDocument]
  match f.dbReplace with
  | some e => ⟨Except.error e, t, ev0⟩
  | none =>
    let t1 : DocTiers := ⟨t.fast, some dbDocument⟩
    if utf8Len jsonData > MAX_STATE_VALUE_SIZE then ⟨Except.ok (), t1, ev0⟩
    else
      let ev1 := ev0 ++ [Event.statePut c.encodedKey jsonData c.ttl]
      match f.statePut with
      | some e => ⟨Except.error e, t1, ev1⟩
      | none => ⟨Except.ok (), ⟨some data, some dbDocument⟩, ev1⟩

/-- `get` of the database storage client (`state-database.ts` lines
219-273).  Read the fast tier first (a hit is `JSON.parse`d and returned);
on a miss, `findOne` the document by its identifier with a projection
excluding `_id`; `null` becomes `undefined`; otherwise, when the JSON
serialization of the found document is within the 1 MB State limit, the JSON
string is written back to the fast tier with the configured TTL
(self-healing) before the document is returned.  Every error is re-thrown
after logging (the database reports not-found via `null`, not an error). -/
def DatabaseStorageClient.get (c : DatabaseStorageClient) (t : DocTiers)
    (f : DbFaults) : StepResult DocTiers (Option Doc) :=
  let ev0 := [Event.stateGet c.encodedKey]
  match f.stateGet with
  | some e => ⟨Except.error e, t, ev0⟩
  | none =>
    match t.fast with
    | some d => ⟨Except.ok (some d), t, ev0⟩
    | none =>
      let ev1 := ev0 ++ [Event.dbFindOne c.dbCollection c.dbDocumentId true]
      match f.dbFind with
      | some e => ⟨Except.error e, t, ev1⟩
      | none =>
        match t.doc with
        | none => ⟨Except.ok none, t, ev1⟩
        | some stored =>
          let doc := eraseField stored "_id"
          let jsonData := Json.stringify (Json.obj doc)
          if utf8Len jsonData ≤ MAX_STATE_VALUE_SIZE then
            let ev2 := ev1 ++ [Event.statePut c.encodedKey jsonData c.ttl]
            match f.statePut with
            | some e => ⟨Except.error e, t, ev2⟩
            | none => ⟨Except.ok (some doc), ⟨some doc, t.doc⟩, ev2⟩
          else ⟨Except.ok (some doc), t, ev1⟩

/-- `exists` of the database storage client (`state-database.ts` lines
278-281): `const data = await this.get(logger); return data !== undefined;`. -/
def DatabaseStorageClient.exists (c : DatabaseStorageClient) (t : DocTiers)
    (f : DbFaults) : StepResult DocTiers Bool :=
  let r := c.get t f
  ⟨r.result.map Option.isSome, r.store, r.trace⟩

/-- `delete` of the database storage client (`state-database.ts` lines
286-308): delete the fast-tier entry and `deleteOne` the document
concurrently (`Promise.all`); both deletions are always issued.  A failed
deletion is logged and re-thrown. -/
def DatabaseStorageClient.delete (c : DatabaseStorageClient) (t : DocTiers)
    (f : DbFaults) : StepResult DocTiers Unit :=
  let ev := [Event.stateDelete c.encodedKey,
    Event.dbDeleteOne c.dbCollection c.dbDocumentId]
  let fast1 := match f.stateDelete with | some _ => t.fast | none => none
  let doc1 := match f.dbDelete with | some _ => t.doc | none => none
  match f.stateDelete, f.dbDelete with
  | some e, _ => ⟨Except.error e, ⟨fast1, doc1⟩, ev⟩
  | none, some e => ⟨Except.error e, ⟨fast1, doc1⟩, ev⟩
  | none, none => ⟨Except.ok (), ⟨none, none⟩, ev⟩

/-- Both tiers empty: the fast tier misses and the blob does not exist. -/
def emptyStringTiers : StringTiers := ⟨none, none⟩

/-- Both tiers empty: the fast tier misses and `findOne` returns `null`. -/
def emptyDocTiers : DocTiers := ⟨none, none⟩

/-- The UTF-8 encoding of the letter a is one byte. -/
theorem utf8Bytes_a : utf8Bytes (Char.ofNat 97) = [97] := by decide

/-- The byte sequence of a run of the letter a. -/
theorem bytes_replicate_a (n : Nat) :
    ((List.replicate n (Char.ofNat 97)).map utf8Bytes).flatten = List.replicate n 97 := by
  induction n with
  | zero => rfl
  | succ n ih => simp [List.replicate_succ, ih, utf8Bytes_a]

/-- `strBytes` on an explicit character list. -/
theorem strBytes_mk (l : List Char) :
    strBytes (String.mk l) = (l.map utf8Bytes).flatten := rfl

/-- Byte length of a run of the letter a. -/
theorem utf8Len_replicate_a (n : Nat) :
    utf8Len (String.mk (List.replicate n (Char.ofNat 97))) = n := by
  rw [utf8Len, strBytes_mk, bytes_replicate_a, List.length_replicate]

/-- Length of a base64url encoding: four characters per three bytes, with a
two- or three-character tail for a partial final group. -/
theorem b64Chunks_length : ∀ l : List Nat, (b64Chunks l).length = (4 * l.length + 2) / 3
  | [] => by simp [b64Chunks]
  | [a] => by simp [b64Chunks]
  | [a, b] => by simp [b64Chunks]
  | a :: b :: c :: rest => by
      simp [b64Chunks, b64Chunks_length rest]
      omega

/-- A string one byte over the fast tier's 1 MB value limit. -/
def bigStr : String := String.mk (List.replicate 1048577 (Char.ofNat 97))

/-- `bigStr` is 1,048,577 bytes long. -/
theorem bigStr_len : utf8Len bigStr = 1048577 := utf8Len_replicate_a 1048577

/-- A raw key whose base64url encoding exceeds 1024 characters. -/
def longKey : String := String.mk (List.replicate 769 (Char.ofNat 97))

/-- The encoded form of `longKey` is 1026 characters long. -/
theorem longKey_encLen : (base64urlEncode longKey).length = 1026 := by
  show (b64Chunks (strBytes longKey)).length = 1026
  rw [longKey, strBytes_mk, bytes_replicate_a, b64Chunks_length, List.length_replicate]

/-- The letter a needs no JSON escaping. -/
theorem escapeChar_a : escapeChar (Char.ofNat 97) = [Char.ofNat 97] := by decide

/-- JSON escaping of a run of the letter a. -/
theorem escaped_replicate_a (n : Nat) :
    ((List.replicate n (Char.ofNat 97)).map escapeChar).flatten
      = List.replicate n (Char.ofNat 97) := by
  induction n with
  | zero => rfl
  | succ n ih => simp [List.replicate_succ, ih, escapeChar_a]

/-- Byte length of the JSON string literal for a run of the letter a: the
run plus the two quotes. -/
theorem utf8Len_quote_replicate_a (n : Nat) :
    utf8Len (quoteStr (String.mk (List.replicate n (Char.ofNat 97)))) = n + 2 := by
  rw [quoteStr]
  show utf8Len (String.mk
    (Char.ofNat 34 :: (List.map escapeChar (List.replicate n (Char.ofNat 97))).flatten
      ++ [Char.ofNat 34])) = n + 2
  rw [escaped_replicate_a, utf8Len, strBytes_mk]
  have h34 : utf8Bytes (Char.ofNat 34) = [34] := by decide
  simp [bytes_replicate_a, h34, utf8Bytes_a]

/-- UTF-8 byte length is additive over string concatenation. -/
theorem utf8Len_append (s t : String) :
    utf8Len (s ++ t) = utf8Len s + utf8Len t := by
  simp [utf8Len, strBytes, String.data_append]

/-- A document holding `bigStr` in one field, whose serialization exceeds
the 1 MB State limit. -/
def bigDoc : Doc := [("a", Json.str bigStr)]

/-- The JSON serialization of `bigDoc` is 1,048,585 bytes long. -/
theorem bigDoc_size :
    utf8Len (Json.stringify (Json.obj bigDoc)) = 1048585 := by
  have h1 : Json.stringify (Json.obj bigDoc)
      = "\x7b" ++ (quoteStr "a" ++ ":" ++ quoteStr bigStr) ++ "\x7d" := by
    simp [bigDoc, Json.stringify, stringifyFields]
  rw [h1]
  have hq : utf8Len (quoteStr bigStr) = 1048579 := by
    rw [bigStr]
    rw [utf8Len_quote_replicate_a]
  have ha : utf8Len (quoteStr "a") = 3 := by decide
  simp [utf8Len_append, hq, ha]
  decide

/-- A field absent from an object is not removed by `eraseField`. -/
theorem eraseField_of_lookup_none (d : Doc) (k : String)
    (h : lookupField d k = none) : eraseField d k = d := by
  induction d with
  | nil => rfl
  | cons p rest ih =>
      obtain ⟨k2, v⟩ := p
      by_cases hk : k2 = k
      · rw [lookupField, if_pos hk] at h
        exact absurd h (by simp)
      · rw [lookupField, if_neg hk] at h
        rw [eraseField, if_neg hk, ih h]

/-- The client constructed for the raw key k with default configuration. -/
def fcK : FileStorageClient :=
  { key := "k", ttl := 31536000, encodedKey := "aw", filePath := "k.json" }

/-- The database client constructed for the raw key k, collection coll and
document id doc1, with default configuration. -/
def dbK : DatabaseStorageClient :=
  { key := "k", ttl := 31536000, encodedKey := "aw"
    dbCollection := "coll", dbDocumentId := "doc1" }

/-- C1: for every raw key whose encoded form fits the 1024-character limit
and every string value of UTF-8 byte length at most 1 MiB, with both tiers
behaving per contract and no call failing, `put` succeeds, leaves the value
in the fast tier, and a following `get` returns the value after a single
fast-tier read, issuing no durable-tier call at all. -/
theorem C1_string_roundtrip_populates_cache
    (cfg : FileStorageClientConfig) (c : FileStorageClient) (v : String)
    (t : StringTiers)
    (_hc : createFileStorageClient cfg = Except.ok c)
    (hv : utf8Len v ≤ MAX_STATE_VALUE_SIZE) :
    (c.put v t noFileFaults).result = Except.ok () ∧
    (c.put v t noFileFaults).store.fast = some v ∧
    (c.get (c.put v t noFileFaults).store noFileFaults).result
      = Except.ok (some v) ∧
    (c.get (c.put v t noFileFaults).store noFileFaults).trace
      = [Event.stateGet c.encodedKey] := by
  have hnb : ¬ utf8Len v > MAX_STATE_VALUE_SIZE := not_lt.mpr hv
  have hput : c.put v t noFileFaults
      = ⟨Except.ok (), ⟨some v, some v⟩,
          [Event.fileWrite c.filePath v, Event.statePut c.encodedKey v c.ttl]⟩ := by
    simp [FileStorageClient.put, noFileFaults, hnb]
  rw [hput]
  simp [FileStorageClient.get, noFileFaults]

/-- Witness for C1: key k, value hello. -/
theorem C1_string_roundtrip_populates_cache_witness :
    (fcK.put "hello" emptyStringTiers noFileFaults).result = Except.ok () ∧
    (fcK.put "hello" emptyStringTiers noFileFaults).store.fast = some "hello" ∧
    (fcK.get (fcK.put "hello" emptyStringTiers noFileFaults).store noFileFaults).result
      = Except.ok (some "hello") ∧
    (fcK.get (fcK.put "hello" emptyStringTiers noFileFaults).store noFileFaults).trace
      = [Event.stateGet fcK.encodedKey] :=
  C1_string_roundtrip_populates_cache ⟨"k", none⟩ fcK "hello" emptyStringTiers
    (by rfl) (by decide)

/-- C2: for a value whose serialized UTF-8 byte length exceeds 1 MiB, `put`
writes the durable tier and returns normally without ever calling the
fast-tier put (raw byte length for the string client, JSON-serialized byte
length for the document client); a later `get` that misses the fast tier
reads the value from the durable tier and returns it without writing it
back to the fast tier. -/
theorem C2_oversized_bypass :
    (∀ (c : FileStorageClient) (v : String) (t : StringTiers),
       utf8Len v > MAX_STATE_VALUE_SIZE →
       (c.put v t noFileFaults).result = Except.ok () ∧
       (c.put v t noFileFaults).store = ⟨t.fast, some v⟩ ∧
       (c.put v t noFileFaults).trace = [Event.fileWrite c.filePath v]) ∧
    (∀ (c : FileStorageClient) (v : String) (t : StringTiers),
       t.fast = none → t.files = some v → utf8Len v > MAX_STATE_VALUE_SIZE →
       (c.get t noFileFaults).result = Except.ok (some v) ∧
       (c.get t noFileFaults).store = t ∧
       (c.get t noFileFaults).trace
         = [Event.stateGet c.encodedKey, Event.fileRead c.filePath]) ∧
    (∀ (c : DatabaseStorageClient) (data : Doc) (t : DocTiers),
       utf8Len (Json.stringify (Json.obj data)) > MAX_STATE_VALUE_SIZE →
       (c.put data t noDbFaults).result = Except.ok () ∧
       (c.put data t noDbFaults).store
         = ⟨t.fast, some (mkDbDocument c.dbDocumentId data)⟩ ∧
       (c.put data t noDbFaults).trace
         = [Event.dbReplaceOne c.dbCollection c.dbDocumentId
             (mkDbDocument c.dbDocumentId data)]) ∧
    (∀ (c : DatabaseStorageClient) (stored : Doc) (t : DocTiers),
       t.fast = none → t.doc = some stored →
       utf8Len (Json.stringify (Json.obj (eraseField stored "_id")))
         > MAX_STATE_VALUE_SIZE →
       (c.get t noDbFaults).result = Except.ok (some (eraseField stored "_id")) ∧
       (c.get t noDbFaults).store = t ∧
       (c.get t noDbFaults).trace
         = [Event.stateGet c.encodedKey,
            Event.dbFindOne c.dbCollection c.dbDocumentId true]) := by
  refine ⟨?_, ?_, ?_, ?_⟩
  · intro c v t h
    simp [FileStorageClient.put, noFileFaults, h]
  · intro c v t hf hfi h
    have hnb : ¬ utf8Len v ≤ MAX_STATE_VALUE_SIZE := not_le.mpr h
    obtain ⟨tf, tfi⟩ := t
    simp only at hf hfi
    subst hf hfi
    simp [FileStorageClient.get, noFileFaults, hnb]
  · intro c data t h
    simp [DatabaseStorageClient.put, noDbFaults, h]
  · intro c stored t hf hd h
    have hnb : ¬ utf8Len (Json.stringify (Json.obj (eraseField stored "_id")))
        ≤ MAX_STATE_VALUE_SIZE := not_le.mpr h
    obtain ⟨tf, td⟩ := t
    simp only at hf hd
    subst hf hd
    simp [DatabaseStorageClient.get, noDbFaults, hnb]

/-- Witness for C2 at a 1,048,577-byte string and a document serializing to
1,048,585 bytes. -/
theorem C2_oversized_bypass_witness :
    ((fcK.put bigStr emptyStringTiers noFileFaults).result = Except.ok () ∧
     (fcK.put bigStr emptyStringTiers noFileFaults).store
       = ⟨emptyStringTiers.fast, some bigStr⟩ ∧
     (fcK.put bigStr emptyStringTiers noFileFaults).trace
       = [Event.fileWrite fcK.filePath bigStr]) ∧
    ((fcK.get ⟨none, some bigStr⟩ noFileFaults).result = Except.ok (some bigStr) ∧
     (fcK.get ⟨none, some bigStr⟩ noFileFaults).store = ⟨none, some bigStr⟩ ∧
     (fcK.get ⟨none, some bigStr⟩ noFileFaults).trace
       = [Event.stateGet fcK.encodedKey, Event.fileRead fcK.filePath]) ∧
    ((dbK.put bigDoc emptyDocTiers noDbFaults).result = Except.ok () ∧
     (dbK.put bigDoc emptyDocTiers noDbFaults).store
       = ⟨emptyDocTiers.fast, some (mkDbDocument dbK.dbDocumentId bigDoc)⟩ ∧
     (dbK.put bigDoc emptyDocTiers noDbFaults).trace
       = [Event.dbReplaceOne dbK.dbCollection dbK.dbDocumentId
           (mkDbDocument dbK.dbDocumentId bigDoc)]) ∧
    ((dbK.get ⟨none, some bigDoc⟩ noDbFaults).result
       = Except.ok (some (eraseField bigDoc "_id")) ∧
     (dbK.get ⟨none, some bigDoc⟩ noDbFaults).store = ⟨none, some bigDoc⟩ ∧
     (dbK.get ⟨none, some bigDoc⟩ noDbFaults).trace
       = [Event.stateGet dbK.encodedKey,
          Event.dbFindOne dbK.dbCollection dbK.dbDocumentId true]) := by
  have hbig : utf8Len bigStr > MAX_STATE_VALUE_SIZE := by
    rw [bigStr_len]
    norm_num [MAX_STATE_VALUE_SIZE]
  have herase : eraseField bigDoc "_id" = bigDoc :=
    eraseField_of_lookup_none _ _ (by simp [bigDoc, lookupField])
  have hdoc : utf8Len (Json.stringify (Json.obj bigDoc)) > MAX_STATE_VALUE_SIZE := by
    rw [bigDoc_size]
    norm_num [MAX_STATE_VALUE_SIZE]
  have hdoc2 : utf8Len (Json.stringify (Json.obj (eraseField bigDoc "_id")))
      > MAX_STATE_VALUE_SIZE := by
    rw [herase]
    exact hdoc
  exact ⟨C2_oversized_bypass.1 fcK bigStr emptyStringTiers hbig,
    C2_oversized_bypass.2.1 fcK bigStr ⟨none, some bigStr⟩ rfl rfl hbig,
    C2_oversized_bypass.2.2.1 dbK bigDoc emptyDocTiers hdoc,
    C2_oversized_bypass.2.2.2 dbK bigDoc ⟨none, some bigDoc⟩ rfl rfl hdoc2⟩

/-- C3: when the value is present only in the durable tier and is within
1 MiB, `get` returns it and performs exactly one fast-tier put, called with
the encoded key and the client's configured TTL; the TTL defaults to
31,536,000 seconds when the configuration omits it. -/
theorem C3_selfheal_single_fast_write :
    (∀ (c : FileStorageClient) (v : String) (t : StringTiers),
       t.fast = none → t.files = some v → utf8Len v ≤ MAX_STATE_VALUE_SIZE →
       (c.get t noFileFaults).result = Except.ok (some v) ∧
       (c.get t noFileFaults).trace
         = [Event.stateGet c.encodedKey, Event.fileRead c.filePath,
            Event.statePut c.encodedKey v c.ttl] ∧
       (c.get t noFileFaults).trace.countP (fun e => e.isFastWrite) = 1) ∧
    (∀ (c : DatabaseStorageClient) (stored : Doc) (t : DocTiers),
       t.fast = none → t.doc = some stored →
       utf8Len (Json.stringify (Json.obj (eraseField stored "_id")))
         ≤ MAX_STATE_VALUE_SIZE →
       (c.get t noDbFaults).result = Except.ok (some (eraseField stored "_id")) ∧
       (c.get t noDbFaults).trace
         = [Event.stateGet c.encodedKey,
            Event.dbFindOne c.dbCollection c.dbDocumentId true,
            Event.statePut c.encodedKey
              (Json.stringify (Json.obj (eraseField stored "_id"))) c.ttl] ∧
       (c.get t noDbFaults).trace.countP (fun e => e.isFastWrite) = 1) ∧
    (∀ (key : String) (c : FileStorageClient),
       createFileStorageClient ⟨key, none⟩ = Except.ok c →
       c.ttl = 31536000) ∧
    (∀ (key coll id : String) (c : DatabaseStorageClient),
       createDatabaseStorageClient ⟨key, coll, id, none⟩ = Except.ok c →
       c.ttl = 31536000) := by
  refine ⟨?_, ?_, ?_, ?_⟩
  · intro c v t hf hfi h
    obtain ⟨tf, tfi⟩ := t
    simp only at hf hfi
    subst hf hfi
    simp [FileStorageClient.get, noFileFaults, h, List.countP, List.countP.go,
      Event.isFastWrite]
  · intro c stored t hf hd h
    obtain ⟨tf, td⟩ := t
    simp only at hf hd
    subst hf hd
    simp [DatabaseStorageClient.get, noDbFaults, h, List.countP, List.countP.go,
      Event.isFastWrite]
  · intro key c hc
    rw [createFileStorageClient] at hc
    cases henc : encodeKey key with
    | error e => rw [henc] at hc; exact absurd hc (by simp)
    | ok ek =>
        rw [henc] at hc
        simp only [Except.ok.injEq] at hc
        rw [← hc]
        rfl
  · intro key coll id c hc
    rw [createDatabaseStorageClient] at hc
    cases henc : encodeKey key with
    | error e => rw [henc] at hc; exact absurd hc (by simp)
    | ok ek =>
        rw [henc] at hc
        simp only [Except.ok.injEq] at hc
        rw [← hc]
        rfl

/-- Witness for C3: self-healing at key k and value hello for the string
client, a one-field document for the database client, and the default TTL
of both factories at key k. -/
theorem C3_selfheal_single_fast_write_witness :
    ((fcK.get ⟨none, some "hello"⟩ noFileFaults).result = Except.ok (some "hello") ∧
     (fcK.get ⟨none, some "hello"⟩ noFileFaults).trace
       = [Event.stateGet fcK.encodedKey, Event.fileRead fcK.filePath,
          Event.statePut fcK.encodedKey "hello" fcK.ttl] ∧
     (fcK.get ⟨none, some "hello"⟩ noFileFaults).trace.countP
       (fun e => e.isFastWrite) = 1) ∧
    ((dbK.get ⟨none, some [("a", Json.num 1)]⟩ noDbFaults).result
       = Except.ok (some (eraseField [("a", Json.num 1)] "_id")) ∧
     (dbK.get ⟨none, some [("a", Json.num 1)]⟩ noDbFaults).trace
       = [Event.stateGet dbK.encodedKey,
          Event.dbFindOne dbK.dbCollection dbK.dbDocumentId true,
          Event.statePut dbK.encodedKey
            (Json.stringify (Json.obj (eraseField [("a", Json.num 1)] "_id")))
            dbK.ttl] ∧
     (dbK.get ⟨none, some [("a", Json.num 1)]⟩ noDbFaults).trace.countP
       (fun e => e.isFastWrite) = 1) ∧
    fcK.ttl = 31536000 ∧
    dbK.ttl = 31536000 := by
  have hsize : utf8Len (Json.stringify
      (Json.obj (eraseField [("a", Json.num 1)] "_id"))) ≤ MAX_STATE_VALUE_SIZE := by
    have : eraseField [("a", Json.num 1)] "_id" = [("a", Json.num 1)] :=
      eraseField_of_lookup_none _ _ (by simp [lookupField])
    rw [this]
    decide
  exact ⟨C3_selfheal_single_fast_write.1 fcK "hello" ⟨none, some "hello"⟩
      rfl rfl (by decide),
    C3_selfheal_single_fast_write.2.1 dbK [("a", Json.num 1)]
      ⟨none, some [("a", Json.num 1)]⟩ rfl rfl hsize,
    C3_selfheal_single_fast_write.2.2.1 "k" fcK (by rfl),
    C3_selfheal_single_fast_write.2.2.2 "k" "coll" "doc1" dbK (by rfl)⟩

/-- C4: when the key/document is absent from both tiers (fast-tier miss,
blob store throws its not-found error, `findOne` returns null), `get`
returns `undefined` without throwing and `exists` returns false, for both
clients. -/
theorem C4_not_found_returns_undefined :
    (∀ c : FileStorageClient,
       (c.get emptyStringTiers noFileFaults).result = Except.ok none ∧
       (c.exists emptyStringTiers noFileFaults).result = Except.ok false) ∧
    (∀ c : DatabaseStorageClient,
       (c.get emptyDocTiers noDbFaults).result = Except.ok none ∧
       (c.exists emptyDocTiers noDbFaults).result = Except.ok false) := by
  constructor
  · intro c
    simp [FileStorageClient.get, FileStorageClient.exists, emptyStringTiers,
      noFileFaults, jsTruthy, Except.map]
  · intro c
    simp [DatabaseStorageClient.get, DatabaseStorageClient.exists, emptyDocTiers,
      noDbFaults, Except.map]

/-- C5 counterexample: with the empty string stored in the fast tier, the
string client's `get` returns the defined value (the empty string) while
`exists` returns false, refuting the claim that `exists()` is true exactly
when `get()` returns a defined value for every stored value including the
empty string. -/
theorem C5_counterexample_empty_string :
    (fcK.get ⟨some "", none⟩ noFileFaults).result = Except.ok (some "") ∧
    (fcK.exists ⟨some "", none⟩ noFileFaults).result = Except.ok false :=
  ⟨rfl, rfl⟩

/-- C5 (amended): `exists()` returns the JavaScript truthiness of `get()`'s
result: for the document client it is true exactly when `get()` returns a
defined value; for the string client it is true exactly when `get()`
returns a defined, non-empty string (the empty string yields false). -/
theorem C5_exists_truthiness :
    (∀ (c : FileStorageClient) (t : StringTiers) (f : FileFaults),
       (c.exists t f).result = (c.get t f).result.map jsTruthy ∧
       ((c.exists t f).result = Except.ok true ↔
         ∃ v, (c.get t f).result = Except.ok (some v) ∧ v ≠ "")) ∧
    (∀ (c : DatabaseStorageClient) (t : DocTiers) (f : DbFaults),
       (c.exists t f).result = (c.get t f).result.map Option.isSome ∧
       ((c.exists t f).result = Except.ok true ↔
         ∃ d, (c.get t f).result = Except.ok (some d))) := by
  constructor
  · intro c t f
    refine ⟨rfl, ?_⟩
    show (c.get t f).result.map jsTruthy = Except.ok true ↔ _
    cases hr : (c.get t f).result with
    | error e => simp [Except.map]
    | ok r =>
        cases r with
        | none => simp [Except.map, jsTruthy]
        | some s => simp [Except.map, jsTruthy]
  · intro c t f
    refine ⟨rfl, ?_⟩
    show (c.get t f).result.map Option.isSome = Except.ok true ↔ _
    cases hr : (c.get t f).result with
    | error e => simp [Except.map]
    | ok r =>
        cases r with
        | none => simp [Except.map]
        | some d => simp [Except.map]

/-- C6: constructing either client with a raw key whose base64url-encoded
form exceeds 1024 characters throws the size-exceeded error synchronously
at construction (the factories are pure: no tier call is involved); for an
encoded form of at most 1024 characters construction succeeds. -/
theorem C6_key_size_rejection :
    (∀ cfg : FileStorageClientConfig,
       ((base64urlEncode cfg.key).length > 1024 →
          createFileStorageClient cfg = Except.error Err.keySizeExceeded) ∧
       ((base64urlEncode cfg.key).length ≤ 1024 →
          ∃ c, createFileStorageClient cfg = Except.ok c)) ∧
    (∀ cfg : DatabaseStorageClientConfig,
       ((base64urlEncode cfg.key).length > 1024 →
          createDatabaseStorageClient cfg = Except.error Err.keySizeExceeded) ∧
       ((base64urlEncode cfg.key).length ≤ 1024 →
          ∃ c, createDatabaseStorageClient cfg = Except.ok c)) := by
  constructor
  · intro cfg
    constructor
    · intro h
      have h2 : (base64urlEncode cfg.key).length > MAX_KEY_SIZE := by
        rw [MAX_KEY_SIZE]
        exact h
      have henc : encodeKey cfg.key = Except.error Err.keySizeExceeded := by
        simp [encodeKey, h2]
      simp [createFileStorageClient, henc]
    · intro h
      have h2 : ¬ (base64urlEncode cfg.key).length > MAX_KEY_SIZE := by
        rw [MAX_KEY_SIZE]
        omega
      have henc : encodeKey cfg.key = Except.ok (base64urlEncode cfg.key) := by
        simp [encodeKey, h2]
      simp only [createFileStorageClient, henc]
      exact ⟨_, rfl⟩
  · intro cfg
    constructor
    · intro h
      have h2 : (base64urlEncode cfg.key).length > MAX_KEY_SIZE := by
        rw [MAX_KEY_SIZE]
        exact h
      have henc : encodeKey cfg.key = Except.error Err.keySizeExceeded := by
        simp [encodeKey, h2]
      simp [createDatabaseStorageClient, henc]
    · intro h
      have h2 : ¬ (base64urlEncode cfg.key).length > MAX_KEY_SIZE := by
        rw [MAX_KEY_SIZE]
        omega
      have henc : encodeKey cfg.key = Except.ok (base64urlEncode cfg.key) := by
        simp [encodeKey, h2]
      simp only [createDatabaseStorageClient, henc]
      exact ⟨_, rfl⟩

/-- Witness for C6: a 769-character raw key (encoded form of 1026
characters) is rejected by both factories; the key k is accepted. -/
theorem C6_key_size_rejection_witness :
    createFileStorageClient ⟨longKey, none⟩ = Except.error Err.keySizeExceeded ∧
    createDatabaseStorageClient ⟨longKey, "coll", "doc1", none⟩
      = Except.error Err.keySizeExceeded ∧
    (∃ c, createFileStorageClient ⟨"k", none⟩ = Except.ok c) ∧
    (∃ c, createDatabaseStorageClient ⟨"k", "coll", "doc1", none⟩ = Except.ok c) := by
  have hlong : (base64urlEncode longKey).length > 1024 := by
    rw [longKey_encLen]
    norm_num
  have hshort : (base64urlEncode "k").length ≤ 1024 := by decide
  exact ⟨(C6_key_size_rejection.1 ⟨longKey, none⟩).1 hlong,
    (C6_key_size_rejection.2 ⟨longKey, "coll", "doc1", none⟩).1 hlong,
    (C6_key_size_rejection.1 ⟨"k", none⟩).2 hshort,
    (C6_key_size_rejection.2 ⟨"k", "coll", "doc1", none⟩).2 hshort⟩

/-- A durable-tier write event is not a fast-tier write event. -/
theorem not_fastWrite_of_durableWrite (e : Event) :
    e.isDurableWrite = true → e.isFastWrite = false := by
  cases e <;> simp [Event.isDurableWrite, Event.isFastWrite]

/-- In a trace headed by a durable write, every fast-tier write is preceded
by a durable write. -/
theorem fastWrite_preceded (a : Event) (rest : List Event)
    (ha : a.isDurableWrite = true) (i : Nat) (e : Event)
    (hi : (a :: rest)[i]? = some e) (hf : e.isFastWrite = true) :
    ∃ j e2, j < i ∧ (a :: rest)[j]? = some e2 ∧ e2.isDurableWrite = true := by
  cases i with
  | zero =>
      simp only [List.getElem?_cons_zero, Option.some.injEq] at hi
      rw [← hi, not_fastWrite_of_durableWrite a ha] at hf
      exact absurd hf (by simp)
  | succ n => exact ⟨0, a, Nat.succ_pos n, by simp, ha⟩

/-- C7: in every execution of `put` on either client, the durable-tier
write (blob write, collection upsert) is issued before any fast-tier write;
no fast-tier write ever precedes it, for values of every size and under any
fault pattern. -/
theorem C7_durable_write_precedes_fast :
    (∀ (c : FileStorageClient) (v : String) (t : StringTiers) (f : FileFaults)
       (i : Nat) (e : Event),
       (c.put v t f).trace[i]? = some e → e.isFastWrite = true →
       ∃ j e2, j < i ∧ (c.put v t f).trace[j]? = some e2 ∧
         e2.isDurableWrite = true) ∧
    (∀ (c : DatabaseStorageClient) (d : Doc) (t : DocTiers) (f : DbFaults)
       (i : Nat) (e : Event),
       (c.put d t f).trace[i]? = some e → e.isFastWrite = true →
       ∃ j e2, j < i ∧ (c.put d t f).trace[j]? = some e2 ∧
         e2.isDurableWrite = true) := by
  constructor
  · intro c v t f i e hi hf
    have hshape : ∃ rest, (c.put v t f).trace
        = Event.fileWrite c.filePath v :: rest := by
      rcases hfw : f.filesWrite with _ | e2
      · by_cases hb : utf8Len v > MAX_STATE_VALUE_SIZE
        · exact ⟨[], by simp [FileStorageClient.put, hfw, hb]⟩
        · rcases hsp : f.statePut with _ | e3
          · exact ⟨[Event.statePut c.encodedKey v c.ttl],
              by simp [FileStorageClient.put, hfw, hb, hsp]⟩
          · exact ⟨[Event.statePut c.encodedKey v c.ttl],
              by simp [FileStorageClient.put, hfw, hb, hsp]⟩
      · exact ⟨[], by simp [FileStorageClient.put, hfw]⟩
    obtain ⟨rest, hr⟩ := hshape
    rw [hr] at hi ⊢
    exact fastWrite_preceded (Event.fileWrite c.filePath v) rest rfl i e hi hf
  · intro c d t f i e hi hf
    have hshape : ∃ rest, (c.put d t f).trace
        = Event.dbReplaceOne c.dbCollection c.dbDocumentId
            (mkDbDocument c.dbDocumentId d) :: rest := by
      rcases hfw : f.dbReplace with _ | e2
      · by_cases hb : utf8Len (Json.stringify (Json.obj d)) > MAX_STATE_VALUE_SIZE
        · exact ⟨[], by simp [DatabaseStorageClient.put, hfw, hb]⟩
        · rcases hsp : f.statePut with _ | e3
          · exact ⟨[Event.statePut c.encodedKey
                (Json.stringify (Json.obj d)) c.ttl],
              by simp [DatabaseStorageClient.put, hfw, hb, hsp]⟩
          · exact ⟨[Event.statePut c.encodedKey
                (Json.stringify (Json.obj d)) c.ttl],
              by simp [DatabaseStorageClient.put, hfw, hb, hsp]⟩
      · exact ⟨[], by simp [DatabaseStorageClient.put, hfw]⟩
    obtain ⟨rest, hr⟩ := hshape
    rw [hr] at hi ⊢
    exact fastWrite_preceded
      (Event.dbReplaceOne c.dbCollection c.dbDocumentId
        (mkDbDocument c.dbDocumentId d)) rest rfl i e hi hf

/-- Witness for C7: the fast-tier write of a small `put` (trace position 1)
is preceded by the durable write, on both clients. -/
theorem C7_durable_write_precedes_fast_witness :
    (∃ j e2, j < 1 ∧
      (fcK.put "hello" emptyStringTiers noFileFaults).trace[j]? = some e2 ∧
      e2.isDurableWrite = true) ∧
    (∃ j e2, j < 1 ∧
      (dbK.put [("a", Json.num 1)] emptyDocTiers noDbFaults).trace[j]?
        = some e2 ∧ e2.isDurableWrite = true) :=
  ⟨C7_durable_write_precedes_fast.1 fcK "hello" emptyStringTiers noFileFaults 1
      (Event.statePut "aw" "hello" 31536000) (by rfl) (by rfl),
    C7_durable_write_precedes_fast.2 dbK [("a", Json.num 1)] emptyDocTiers
      noDbFaults 1
      (Event.statePut "aw" (Json.stringify (Json.obj [("a", Json.num 1)])) 31536000)
      (by rfl) (by rfl)⟩

/-- C8: for a document without the internal identifier field whose JSON
serialization is at most 1 MiB, `put(data)` upserts a shallow copy with the
configured identifier merged in, and a following `get` — from the fast tier
or, on a miss, from the durable collection with a projection excluding the
identifier — returns an object deep-equal to `data` with no `_id` field
present. -/
theorem C8_document_roundtrip (cfg : DatabaseStorageClientConfig)
    (c : DatabaseStorageClient) (data : Doc) (t : DocTiers)
    (_hc : createDatabaseStorageClient cfg = Except.ok c)
    (hid : lookupField data "_id" = none)
    (hsize : utf8Len (Json.stringify (Json.obj data)) ≤ MAX_STATE_VALUE_SIZE) :
    (c.put data t noDbFaults).result = Except.ok () ∧
    (c.put data t noDbFaults).store.doc
      = some (("_id", Json.str c.dbDocumentId) :: data) ∧
    (c.get (c.put data t noDbFaults).store noDbFaults).result
      = Except.ok (some data) ∧
    (c.get ⟨none, (c.put data t noDbFaults).store.doc⟩ noDbFaults).result
      = Except.ok (some data) ∧
    lookupField data "_id" = none := by
  have herase : eraseField data "_id" = data := eraseField_of_lookup_none _ _ hid
  have hnb : ¬ utf8Len (Json.stringify (Json.obj data)) > MAX_STATE_VALUE_SIZE :=
    not_lt.mpr hsize
  have hdoc : mkDbDocument c.dbDocumentId data
      = ("_id", Json.str c.dbDocumentId) :: data := by
    rw [mkDbDocument, hid, herase]
    rfl
  have hput : c.put data t noDbFaults
      = ⟨Except.ok (),
          ⟨some data, some (("_id", Json.str c.dbDocumentId) :: data)⟩,
          [Event.dbReplaceOne c.dbCollection c.dbDocumentId
            (("_id", Json.str c.dbDocumentId) :: data),
           Event.statePut c.encodedKey (Json.stringify (Json.obj data)) c.ttl]⟩ := by
    simp [DatabaseStorageClient.put, noDbFaults, hnb, hdoc]
  have herase2 : eraseField (("_id", Json.str c.dbDocumentId) :: data) "_id"
      = data := by
    rw [eraseField, if_pos rfl, herase]
  rw [hput]
  refine ⟨rfl, rfl, rfl, ?_, hid⟩
  simp only [DatabaseStorageClient.get, noDbFaults, herase2]
  simp [hsize]

/-- Witness for C8: a one-field document at the default configuration. -/
theorem C8_document_roundtrip_witness :
    (dbK.put [("a", Json.num 1)] emptyDocTiers noDbFaults).result
      = Except.ok () ∧
    (dbK.put [("a", Json.num 1)] emptyDocTiers noDbFaults).store.doc
      = some (("_id", Json.str dbK.dbDocumentId) :: [("a", Json.num 1)]) ∧
    (dbK.get (dbK.put [("a", Json.num 1)] emptyDocTiers noDbFaults).store
        noDbFaults).result = Except.ok (some [("a", Json.num 1)]) ∧
    (dbK.get ⟨none, (dbK.put [("a", Json.num 1)] emptyDocTiers noDbFaults).store.doc⟩
        noDbFaults).result = Except.ok (some [("a", Json.num 1)]) ∧
    lookupField [("a", Json.num 1)] "_id" = none :=
  C8_document_roundtrip ⟨"k", "coll", "doc1", none⟩ dbK [("a", Json.num 1)]
    emptyDocTiers (by rfl) (by rfl) (by decide)

/-- C9: `delete` issues the delete on both tiers unconditionally, whatever
the tiers contain and whatever faults occur; and under the collaborator
contract that tier deletes do not throw on absent entries, two consecutive
`delete` calls both succeed. -/
theorem C9_delete_both_tiers_idempotent :
    (∀ (c : FileStorageClient) (t : StringTiers) (f : FileFaults),
       Event.stateDelete c.encodedKey ∈ (c.delete t f).trace ∧
       Event.fileDelete c.filePath ∈ (c.delete t f).trace) ∧
    (∀ (c : DatabaseStorageClient) (t : DocTiers) (f : DbFaults),
       Event.stateDelete c.encodedKey ∈ (c.delete t f).trace ∧
       Event.dbDeleteOne c.dbCollection c.dbDocumentId ∈ (c.delete t f).trace) ∧
    (∀ (c : FileStorageClient) (t : StringTiers),
       (c.delete t noFileFaults).result = Except.ok () ∧
       (c.delete ((c.delete t noFileFaults).store) noFileFaults).result
         = Except.ok ()) ∧
    (∀ (c : DatabaseStorageClient) (t : DocTiers),
       (c.delete t noDbFaults).result = Except.ok () ∧
       (c.delete ((c.delete t noDbFaults).store) noDbFaults).result
         = Except.ok ()) := by
  refine ⟨?_, ?_, ?_, ?_⟩
  · intro c t f
    rcases hsd : f.stateDelete with _ | e1 <;>
      rcases hfd : f.filesDelete with _ | e2 <;>
      simp [FileStorageClient.delete, hsd, hfd]
  · intro c t f
    rcases hsd : f.stateDelete with _ | e1 <;>
      rcases hfd : f.dbDelete with _ | e2 <;>
      simp [DatabaseStorageClient.delete, hsd, hfd]
  · intro c t
    exact ⟨rfl, rfl⟩
  · intro c t
    exact ⟨rfl, rfl⟩

/-- C10 (implicit): when a `get` cache miss finds the value in the durable
tier within the 1 MiB threshold but the self-healing fast-tier write
throws, `get` propagates that error to the caller instead of returning the
value already retrieved, on both clients (for the string client the error
must not carry the blob tier's not-found code, which the catch block maps
to `undefined`). -/
theorem C10_selfheal_error_propagates :
    (∀ (c : FileStorageClient) (v : String) (t : StringTiers) (e : Err),
       t.fast = none → t.files = some v →
       utf8Len v ≤ MAX_STATE_VALUE_SIZE → e.isFileNotExists = false →
       (c.get t { noFileFaults with statePut := some e }).result
         = Except.error e) ∧
    (∀ (c : DatabaseStorageClient) (stored : Doc) (t : DocTiers) (e : Err),
       t.fast = none → t.doc = some stored →
       utf8Len (Json.stringify (Json.obj (eraseField stored "_id")))
         ≤ MAX_STATE_VALUE_SIZE →
       (c.get t { noDbFaults with statePut := some e }).result
         = Except.error e) := by
  constructor
  · intro c v t e hf hfi hsize hnotnf
    obtain ⟨tf, tfi⟩ := t
    simp only at hf hfi
    subst hf hfi
    simp [FileStorageClient.get, noFileFaults, hsize, catchNotFound, hnotnf]
  · intro c stored t e hf hd hsize
    obtain ⟨tf, td⟩ := t
    simp only at hf hd
    subst hf hd
    simp [DatabaseStorageClient.get, noDbFaults, hsize]

/-- Witness for C10: a connection-style failure injected into the
self-healing fast-tier write is surfaced by `get` on both clients. -/
theorem C10_selfheal_error_propagates_witness :
    (fcK.get ⟨none, some "hello"⟩
        { noFileFaults with statePut := some (Err.tierFailure "boom") }).result
      = Except.error (Err.tierFailure "boom") ∧
    (dbK.get ⟨none, some [("a", Json.num 1)]⟩
        { noDbFaults with statePut := some (Err.tierFailure "boom") }).result
      = Except.error (Err.tierFailure "boom") := by
  have hsize : utf8Len (Json.stringify
      (Json.obj (eraseField [("a", Json.num 1)] "_id"))) ≤ MAX_STATE_VALUE_SIZE := by
    have h : eraseField [("a", Json.num 1)] "_id" = [("a", Json.num 1)] :=
      eraseField_of_lookup_none _ _ (by simp [lookupField])
    rw [h]
    decide
  exact ⟨C10_selfheal_error_propagates.1 fcK "hello" ⟨none, some "hello"⟩
      (Err.tierFailure "boom") rfl rfl (by decide) (by rfl),
    C10_selfheal_error_propagates.2 dbK [("a", Json.num 1)]
      ⟨none, some [("a", Json.num 1)]⟩ (Err.tierFailure "boom") rfl rfl hsize⟩
